import Mathlib

/-!
Verification development for the ai-notes repository.

The embedding models text as `List Char` (one entry per Unicode code point,
matching Python string indexing/length), monotonic time and PCM samples as `ℚ`,
and machine 16-bit integers as `Int` with explicit wrapping modulo 2^16.

Source files embedded:
* `backend/tagging.py` — `clean_text`, `normalize_word`, `extract_keywords`,
  `extract_keyphrases`, `classify_conversation`,
  `determine_conversation_purpose`, `generate_tags`.
* `backend/services/tagging.py` — `TextAnalyzer.preprocess_text` /
  `TextAnalyzer.categorize_text` (the branch without the optional NLTK
  dependency, which is the deterministic in-repository algorithm).
* `backend/audio_recorder.py` — `AudioRecorder.is_speech`,
  `AudioRecorder.callback`, the int16 rescaling used by `is_speech` and
  `save_audio`, and the recording-session state machine they implement.
-/

/-! ## Character-level text utilities -/

/-- Lower-casing covering ASCII letters and the Cyrillic letters used by the
repository's Russian keyword tables (models Python `str.lower` on the
alphabets that occur in the source data). -/
def charLower (c : Char) : Char :=
  if 0x41 ≤ c.toNat ∧ c.toNat ≤ 0x5A then Char.ofNat (c.toNat + 0x20)
  else if 0x410 ≤ c.toNat ∧ c.toNat ≤ 0x42F then Char.ofNat (c.toNat + 0x20)
  else if c.toNat = 0x401 then Char.ofNat 0x451
  else c

/-- Python regex `\w` restricted to ASCII alphanumerics, underscore and the
Cyrillic block (the alphabets occurring in the repository's data). -/
def isWordChar (c : Char) : Bool :=
  c.isAlphanum || c = '_' || (0x400 ≤ c.toNat && c.toNat ≤ 0x4FF)

/-- ASCII whitespace, modelling Python regex `\s` / `str.strip()`. -/
def isSpaceChar (c : Char) : Bool :=
  c = ' ' || c = '\t' || c = '\n' || c = '\r'

/-- One character of `re.sub(r'[^\w\s-]', ' ', text)` composed with the
subsequent `re.sub(r'\s+', ' ', text)`: word characters and hyphens are kept,
everything else (including whitespace, later collapsed) becomes a space. -/
def cleanChar (c : Char) : Char :=
  if isWordChar c || c = '-' then c else ' '

/-- Collapse runs of spaces to a single space (`re.sub(r'\s+', ' ', ...)`). -/
def collapseSpaces : List Char → List Char
  | [] => []
  | [c] => [c]
  | c :: d :: t =>
    if c = ' ' && d = ' ' then collapseSpaces (d :: t)
    else c :: collapseSpaces (d :: t)

/-- Strip leading and trailing spaces (`str.strip()` after collapsing). -/
def stripSpaces (l : List Char) : List Char :=
  ((l.dropWhile (fun c => c = ' ')).reverse.dropWhile (fun c => c = ' ')).reverse

/-- Strip leading and trailing whitespace (`str.strip()` on raw text). -/
def stripWS (l : List Char) : List Char :=
  ((l.dropWhile isSpaceChar).reverse.dropWhile isSpaceChar).reverse

/-- `clean_text` from `backend/tagging.py`: lowercase, replace characters
outside `\w`, `\s` and hyphen by spaces, collapse whitespace, strip. -/
def clean_text (text : List Char) : List Char :=
  stripSpaces (collapseSpaces ((text.map charLower).map cleanChar))

/-- Does `pat` occur at the very start of `l`? -/
def startsWithL : List Char → List Char → Bool
  | [], _ => true
  | _ :: _, [] => false
  | c :: cs, d :: ds => c = d && startsWithL cs ds

/-- Python's substring test `pat in hay`. -/
def containsSub (pat : List Char) : List Char → Bool
  | [] => startsWithL pat []
  | c :: t => startsWithL pat (c :: t) || containsSub pat t

/-- Number of start positions at which `pat` occurs in the text. -/
def countOccur (pat : List Char) : List Char → Nat
  | [] => if startsWithL pat [] then 1 else 0
  | c :: t => (if startsWithL pat (c :: t) then 1 else 0) + countOccur pat t

/-- Whitespace tokenisation, Python `str.split()` (no empty tokens). -/
def splitToksAux : List Char → List Char → List (List Char)
  | [], acc => if acc = [] then [] else [acc.reverse]
  | c :: t, acc =>
    if c = ' ' then
      if acc = [] then splitToksAux t [] else acc.reverse :: splitToksAux t []
    else splitToksAux t (c :: acc)

/-- Tokens of a cleaned text, split on spaces. -/
def splitTokens (l : List Char) : List (List Char) := splitToksAux l []

/-! ## Stop words, suffix heuristics and keyword extraction
(`backend/tagging.py`) -/

/-- The in-source additions to `STOPWORDS` (`backend/tagging.py` lines 64-72).
The optional NLTK Russian stop-word list is an external resource and is not
part of the repository; the in-source set below is what the module guarantees
unconditionally. -/
def STOPWORDS : List String :=
  ["это", "так", "вот", "быть", "как", "в", "—", "к", "на", "да", "ты",
   "не", "наверное", "точно", "просто", "очень", "также", "вообще",
   "именно", "ещё", "еще", "например", "всегда", "либо", "или", "будет",
   "может", "можно", "также", "какой", "какая", "какое", "какие", "был", "была", "были",
   "который", "которая", "которые", "когда", "только", "можно", "нужно", "такой", "один",
   "и", "а", "но", "что", "то", "с", "по", "за", "от", "из", "у", "о", "об", "я", "мы",
   "они", "он", "она", "оно",
   "все", "весь", "вся", "меня", "тебя", "его", "её", "нас", "вас", "их", "мой", "твой",
   "свой", "наш", "ваш"]

/-- Membership of a token in the stop-word set. -/
def isStopword (t : List Char) : Bool :=
  STOPWORDS.any (fun w => w.toList = t)

/-- The ordered suffix list of `normalize_word` (`backend/tagging.py`),
including the duplicated first entry exactly as in the source. -/
def SUFFIXES : List String :=
  ["ами", "ами", "ого", "его", "ому", "ему", "ыми", "ими",
   "ой", "ый", "ий", "ая", "яя", "ое", "ее", "ут", "ют",
   "ат", "ят", "ешь", "ёшь", "ишь", "ем", "им", "ете", "ите",
   "ал", "ял", "ыл", "ил", "ала", "яла", "ыла", "ила",
   "ть", "еть", "ать", "ять", "уть", "ють", "ить"]

/-- Does `l` end with `pat`? -/
def endsWithL (pat l : List Char) : Bool :=
  startsWithL pat.reverse l.reverse

/-- `normalize_word` from `backend/tagging.py`: for words longer than 4
characters, strip the first listed suffix that matches and leaves a stem
longer than 3 characters.  (`normalize_word_improved` delegates to the
external PyMorphy2 analyzer when that optional dependency is installed and
falls back to this deterministic heuristic otherwise; the heuristic is the
in-repository algorithm.) -/
def normalize_word (w : List Char) : List Char :=
  if w.length > 4 then
    match SUFFIXES.find? (fun s =>
        endsWithL s.toList w && decide (w.length - s.toList.length > 3)) with
    | some s => w.take (w.length - s.toList.length)
    | none => w
  else w

/-- Is the token all digits (`str.isdigit` on a nonempty token)? -/
def isDigits (t : List Char) : Bool :=
  t.all (fun c => c.isDigit)

/-- The token filter + normalisation loop of `extract_keywords`. -/
def filteredTokens (text : List Char) (minWordLength : Nat) : List (List Char) :=
  (splitTokens (clean_text text)).filterMap (fun tok =>
    if tok.length ≥ minWordLength && !isStopword tok && !isDigits tok &&
        !tok.all (fun c => c = '-') then
      let nf := normalize_word tok
      if nf.length ≥ minWordLength then some nf else none
    else none)

/-- Frequency counting with Python-dict insertion order (first occurrence
first). -/
def bump (t : List Char) : List (List Char × Nat) → List (List Char × Nat)
  | [] => [(t, 1)]
  | (u, n) :: rest => if u = t then (u, n + 1) :: rest else (u, n) :: bump t rest

/-- `word_freq` built by the counting loops of `extract_keywords` and
`extract_keyphrases`. -/
def countFreq (ts : List (List Char)) : List (List Char × Nat) :=
  ts.foldl (fun acc t => bump t acc) []

/-- Stable descending insertion by count: a new item goes after every earlier
item with a count ≥ its own, matching Python's stable
`sorted(..., key=item[1], reverse=True)`. -/
def insertDesc {α β : Type} [LinearOrder β] (x : α × β) :
    List (α × β) → List (α × β)
  | [] => [x]
  | y :: ys => if y.2 < x.2 then x :: y :: ys else y :: insertDesc x ys

/-- Stable descending sort by the second component. -/
def sortDescBy {α β : Type} [LinearOrder β] (l : List (α × β)) : List (α × β) :=
  l.foldl (fun acc x => insertDesc x acc) []

/-- Order-preserving deduplication, `list(dict.fromkeys(...))`. -/
def dedupAux (seen : List (List Char)) : List (List Char) → List (List Char)
  | [] => []
  | x :: t => if x ∈ seen then dedupAux seen t else x :: dedupAux (x :: seen) t

/-- Order-preserving deduplication. -/
def dedup (l : List (List Char)) : List (List Char) := dedupAux [] l

/-- `extract_keywords(text, max_tags, min_word_length, min_frequency)` from
`backend/tagging.py`. -/
def extract_keywords (text : List Char)
    (maxTags minWordLength minFrequency : Nat) : List (List Char) :=
  let sorted := sortDescBy (countFreq (filteredTokens text minWordLength))
  let common := (sorted.filter (fun p => minFrequency ≤ p.2)).map (fun p => p.1)
  let common :=
    if common.length < maxTags ∧ minFrequency > 1 then sorted.map (fun p => p.1)
    else common
  dedup (common.take maxTags)

/-! ## Key-phrase extraction (`backend/tagging.py`) -/

/-- All contiguous windows of length `n`, Python
`[tokens[i:i+n] for i in range(len(tokens) - n + 1)]`. -/
def windows (n : Nat) : List (List Char) → List (List (List Char))
  | [] => if n = 0 then [[]] else []
  | c :: t =>
    if (c :: t).length < n then []
    else (c :: t).take n :: windows n t

/-- `' '.join(phrase)`. -/
def joinSpaces (ws : List (List Char)) : List Char :=
  List.intercalate [' '] ws

/-- The candidate n-gram list built by `extract_keyphrases`: every window of
`min_phrase_words ≤ n ≤ max_phrase_words` tokens in which every component has
length ≥ 3 and is not a stop word. -/
def candidatePhrases (text : List Char) (minPW maxPW : Nat) : List (List Char) :=
  let tokens := splitTokens (clean_text text)
  ((List.range' minPW (maxPW + 1 - minPW)).map (fun n =>
    (windows n tokens).filterMap (fun w =>
      if w.all (fun word => word.length ≥ 3 && !isStopword word) then
        some (joinSpaces w)
      else none))).flatten

/-- `extract_keyphrases(text, max_phrases, min_phrase_words,
max_phrase_words)` from `backend/tagging.py`: count candidate n-grams, sort
descending by frequency, keep the first `max_phrases`.  (Note: the source
applies no minimum-frequency filter.) -/
def extract_keyphrases (text : List Char)
    (maxPhrases minPW maxPW : Nat) : List (List Char) :=
  ((sortDescBy (countFreq (candidatePhrases text minPW maxPW))).take
    maxPhrases).map (fun p => p.1)

/-! ## Category and purpose classification (`backend/tagging.py`) -/

/-- The `CATEGORIES` trigger table, in source insertion order. -/
def CATEGORIES : List (String × List String) :=
  [("бизнес", ["проект", "встреча", "клиент", "продажа", "маркетинг", "стратегия",
      "бюджет", "прибыль", "компания", "бизнес", "партнер", "контракт", "сделка",
      "переговоры", "презентация"]),
   ("техническое", ["код", "программирование", "разработка", "баг", "фича",
      "алгоритм", "система", "технология", "приложение", "сервер", "база данных",
      "фреймворк", "библиотека", "интеграция", "деплой"]),
   ("образование", ["обучение", "курс", "студент", "преподаватель", "задание",
      "экзамен", "лекция", "учеба", "образование", "знание", "навык", "практика",
      "теория", "учитель", "материал"]),
   ("личное", ["семья", "друзья", "отпуск", "хобби", "здоровье", "дом", "отдых",
      "личное", "жизнь", "эмоции", "настроение", "впечатление", "чувства",
      "отношения"]),
   ("планирование", ["план", "цель", "задача", "дедлайн", "расписание",
      "приоритет", "график", "сроки", "проектирование", "оценка", "распределение",
      "этапы", "последовательность"]),
   ("отчет", ["результат", "статус", "прогресс", "отчет", "показатель", "метрика",
      "анализ", "итоги", "выводы", "сравнение", "измерение", "оценка результатов",
      "подведение итогов"])]

/-- `classify_conversation` from `backend/tagging.py`: a category is kept iff
any of its trigger terms is a substring of the cleaned text.  The source
accumulates matches in a Python `set` (whose iteration order is unspecified);
the model returns matches in table order — claims about this function are
stated at the level of membership / set equality only. -/
def classify_conversation (text : List Char) : List String :=
  (CATEGORIES.filter (fun p =>
    p.2.any (fun kw => containsSub kw.toList (clean_text text)))).map
    (fun p => p.1)

/-- The `PURPOSE_INDICATORS` table, in source insertion order. -/
def PURPOSE_INDICATORS : List (String × List String) :=
  [("брейншторм", ["идея", "придумать", "обсудить варианты", "мозговой штурм",
      "креативный", "давайте подумаем", "как насчет", "предложение", "вариант",
      "концепция"]),
   ("обсуждение проблемы", ["проблема", "сложность", "трудность", "решение",
      "исправить", "ошибка", "не работает", "сбой", "недостаток", "преодолеть",
      "устранить"]),
   ("планирование", ["план", "график", "дедлайн", "сроки", "следующий шаг",
      "этапы", "распределить", "запланировать", "календарь", "расписание",
      "дорожная карта"]),
   ("принятие решения", ["решение", "выбор", "решить", "определить",
      "согласовать", "утвердить", "остановиться на", "выбрать", "предпочтение",
      "окончательно"]),
   ("информирование", ["сообщить", "информация", "данные", "отчет", "статус",
      "новость", "извещение", "уведомить", "рассказать",
      "поделиться информацией"]),
   ("обучение", ["объяснить", "научить", "разобрать", "понять как", "методика",
      "инструкция", "техника", "обучение", "тренинг", "изучение", "пример"]),
   ("обратная связь", ["фидбек", "обратная связь", "мнение", "оценка",
      "как тебе", "что думаешь", "твое мнение", "впечатление", "комментарий",
      "отзыв"])]

/-- The score loop of `determine_conversation_purpose`: each indicator phrase
that occurs as a substring of the cleaned text adds 1 to its purpose's score
(`if indicator in clean: scores[purpose] += 1`). -/
def purposeScores (text : List Char) : List (String × Nat) :=
  PURPOSE_INDICATORS.map (fun p =>
    (p.1, p.2.countP (fun ind => containsSub ind.toList (clean_text text))))

/-- `sum(scores.values())`. -/
def totalPurposeScore (text : List Char) : Nat :=
  ((purposeScores text).map (fun p => p.2)).sum

/-- Python `max(items, key=lambda x: x[1])`: the first item whose score is
maximal (a later item replaces the current best only when strictly greater). -/
def maxByScore (l : List (String × Nat)) : String × Nat :=
  match l with
  | [] => ("", 0)
  | x :: xs => xs.foldl (fun best y => if best.2 < y.2 then y else best) x

/-- Result record of `determine_conversation_purpose`. -/
structure PurposeResult where
  main_purpose : String
  purpose_probabilities : List (String × ℚ)
  sorted_purposes : List (String × ℚ)
  deriving Repr, DecidableEq

/-- `determine_conversation_purpose` from `backend/tagging.py`. -/
def determine_conversation_purpose (text : List Char) : PurposeResult :=
  let scores := purposeScores text
  let total := totalPurposeScore text
  let percentages : List (String × ℚ) :=
    if 0 < total then
      scores.map (fun p => (p.1, ((p.2 : ℚ) / (total : ℚ)) * 100))
    else scores.map (fun p => (p.1, 0))
  let best := maxByScore scores
  let mainp := if 2 ≤ best.2 then best.1 else "общее обсуждение"
  { main_purpose := mainp
    purpose_probabilities := percentages
    sorted_purposes := sortDescBy percentages }

/-! ## `TextAnalyzer` from `backend/services/tagging.py`
(the branch without the optional NLTK dependency) -/

/-- The basic stop-word set of `TextAnalyzer.__init__` when NLTK is absent. -/
def BASIC_STOPWORDS : List String :=
  ["и", "в", "на", "с", "по", "для", "не", "что", "это", "так",
   "вот", "быть", "как", "а", "но", "от", "к", "у", "же", "за"]

/-- Maximal runs of word characters, Python `re.findall(r'\b\w+\b', text)`. -/
def wordRunsAux : List Char → List Char → List (List Char)
  | [], acc => if acc = [] then [] else [acc.reverse]
  | c :: t, acc =>
    if isWordChar c then wordRunsAux t (c :: acc)
    else if acc = [] then wordRunsAux t []
    else acc.reverse :: wordRunsAux t []

/-- Maximal runs of word characters. -/
def wordRuns (l : List Char) : List (List Char) := wordRunsAux l []

/-- `TextAnalyzer.preprocess_text` (non-NLTK branch): lowercase, tokenize on
word-character runs, drop stop words and tokens of length ≤ 2. -/
def TextAnalyzer_preprocess (text : List Char) : List (List Char) :=
  (wordRuns (text.map charLower)).filter (fun tok =>
    !(BASIC_STOPWORDS.any (fun w => w.toList = tok)) && tok.length > 2)

/-- The category table local to `TextAnalyzer.categorize_text`. -/
def SERVICE_CATEGORIES : List (String × List String) :=
  [("бизнес", ["проект", "клиент", "продажи", "маркетинг", "бюджет",
      "стратегия", "рынок"]),
   ("технический", ["код", "программа", "разработка", "система", "алгоритм",
      "данные", "сервер"]),
   ("образовательный", ["обучение", "курс", "студент", "знания",
      "преподаватель", "образование"]),
   ("личный", ["семья", "друзья", "отдых", "планы", "здоровье", "дом"])]

/-- `TextAnalyzer.categorize_text`: a category matches when one of its
keywords is a substring of the lowered text or equals a preprocessed token;
`return found_categories or ["общий"]` supplies the default category. -/
def TextAnalyzer_categorize_text (text : List Char) : List String :=
  let tokens := TextAnalyzer_preprocess text
  let lower := text.map charLower
  let found := (SERVICE_CATEGORIES.filter (fun p =>
    p.2.any (fun kw =>
      containsSub kw.toList lower || tokens.any (fun t => t = kw.toList)))).map
    (fun p => p.1)
  if found = [] then ["общий"] else found

/-! ## Tag-generation orchestration (`generate_tags`, `backend/tagging.py`) -/

/-- The record returned by `generate_tags`.  `purpose_details` is `none` for
the short-text early return, where the source returns an empty dict. -/
structure TagBundle where
  keywords : List (List Char)
  keyphrases : List (List Char)
  categories : List String
  topics : List String
  purpose : String
  purpose_details : Option PurposeResult
  all_tags : List (List Char)
  deriving Repr

/-- `generate_tags(text, max_keywords, max_phrases, classify)` from
`backend/tagging.py`.  `topicsFn` stands for `extract_topics_with_model`,
whose body is a thin wrapper over the optional external scikit-learn
dependency; the claims below hold for every such function, so it is passed in
as a parameter. -/
def generate_tags (topicsFn : List Char → List String) (text : List Char)
    (maxKeywords maxPhrases : Nat) (classify : Bool) : TagBundle :=
  if (stripWS text).length < 10 then
    { keywords := [], keyphrases := [], categories := [], topics := []
      purpose := "неизвестно", purpose_details := none, all_tags := [] }
  else
    let keywords := extract_keywords text maxKeywords 4 1
    let keyphrases := extract_keyphrases text maxPhrases 2 3
    if classify = true ∧ text.length > 100 then
      let categories := classify_conversation text
      let topics := topicsFn text
      let pr := determine_conversation_purpose text
      { keywords := keywords, keyphrases := keyphrases
        categories := categories, topics := topics
        purpose := pr.main_purpose, purpose_details := some pr
        all_tags := keywords ++ keyphrases ++ categories.map String.toList }
    else
      { keywords := keywords, keyphrases := keyphrases
        categories := [], topics := []
        purpose := "общее обсуждение"
        purpose_details := some
          { main_purpose := "общее обсуждение"
            purpose_probabilities := [], sorted_purposes := [] }
        all_tags := keywords ++ keyphrases }

/-! ## Audio recorder (`backend/audio_recorder.py`)

Samples and timestamps are modelled as `ℚ` (the source uses floats; the
concrete inputs used in the theorems below are exactly representable), int16
values as `Int` with explicit wrapping modulo `2^16`. -/

/-- A mono audio frame of normalized samples. -/
def Frame := List ℚ

/-- Truncation toward zero, the C-style `float → integer` conversion
performed by numpy's `astype`. -/
def ratTrunc (q : ℚ) : Int := Int.tdiv q.num (Int.ofNat q.den)

/-- Wrap an integer into the int16 range `[-32768, 32767]`, the wraparound
`astype(np.int16)` applies to out-of-range values. -/
def int16wrap (n : Int) : Int := ((n + 32768) % 65536) - 32768

/-- A sample as converted by `is_speech`:
`(audio_frame * 32768).astype(np.int16)`. -/
def speechSampleInt16 (x : ℚ) : Int := int16wrap (ratTrunc (x * 32768))

/-- A sample as converted by `save_audio`:
`(audio_data * 32767).astype(np.int16)`. -/
def saveSampleInt16 (x : ℚ) : Int := int16wrap (ratTrunc (x * 32767))

/-- The int16 frame handed to the VAD engine by `is_speech`. -/
def speechFrameInt16 (fr : Frame) : List Int := fr.map speechSampleInt16

/-- The int16 data written to the WAV file by `save_audio`. -/
def saveFrameInt16 (fr : Frame) : List Int := fr.map saveSampleInt16

/-- `AudioRecorder.is_speech`: the frame is rescaled to int16 and handed to
the external `webrtcvad` engine (modelled as `vad`, which may fail); any
error from the engine is caught, logged and turned into `false`. -/
def is_speech (vad : List Int → Except String Bool) (fr : Frame) : Bool :=
  match vad (speechFrameInt16 fr) with
  | Except.ok b => b
  | Except.error _ => false

/-- The mutable state of `AudioRecorder` used by `callback`:
`audio_buffer`, `is_recording` and `last_voice_time`. -/
structure RecState where
  audioBuffer : List Frame
  isRecording : Bool
  lastVoiceTime : ℚ

/-- `AudioRecorder.callback` for one frame arriving at time `now` (the
source reads `time.time()` twice within one callback; the model uses a single
per-frame timestamp).  Returns the new state and whether the callback raised
`sd.CallbackStop` (stopping the stream, the Finalizing transition). -/
def callback (isSpeechFn : Frame → Bool) (silenceThreshold : ℚ)
    (st : RecState) (frame : Frame) (now : ℚ) : RecState × Bool :=
  let st1 :=
    if isSpeechFn frame then
      { st with isRecording := true, lastVoiceTime := now }
    else st
  if st1.isRecording then
    let st2 := { st1 with audioBuffer := st1.audioBuffer ++ [frame] }
    if silenceThreshold < now - st2.lastVoiceTime then
      ({ st2 with isRecording := false }, true)
    else (st2, false)
  else (st1, false)

/-- The state set up by `start_recording` before the stream is opened:
empty buffer, not recording, `last_voice_time = 0`. -/
def initRecState : RecState := { audioBuffer := [], isRecording := false, lastVoiceTime := 0 }

/-- Feed a timed frame sequence through `callback`; the stream stops (and
later frames are not processed) once the callback raises `CallbackStop`. -/
def runFrames (isSpeechFn : Frame → Bool) (silenceThreshold : ℚ)
    (st : RecState) : List (Frame × ℚ) → RecState
  | [] => st
  | (fr, t) :: rest =>
    let r := callback isSpeechFn silenceThreshold st fr t
    if r.2 then r.1 else runFrames isSpeechFn silenceThreshold r.1 rest

theorem clean_text_example :
    clean_text ("  Встреча,   Клиент!  ".toList) = "встреча клиент".toList := by
  decide

theorem containsSub_example :
    containsSub ("план".toList) ("план план план".toList) = true ∧
      countOccur ("план".toList) ("план план план".toList) = 3 := by
  decide

theorem keyphrase_example :
    extract_keyphrases ("встреча клиент".toList) 5 2 3 =
      [("встреча клиент").toList] := by
  decide

/-! ## Helper lemmas -/

theorem containsSub_of_countOccur_pos (pat : List Char) :
    ∀ l : List Char, 0 < countOccur pat l → containsSub pat l = true
  | [], h => by
    unfold countOccur at h
    unfold containsSub
    by_cases hs : startsWithL pat [] = true
    · exact hs
    · simp [hs] at h
  | c :: t, h => by
    unfold countOccur at h
    unfold containsSub
    by_cases hs : startsWithL pat (c :: t) = true
    · simp [hs]
    · simp only [hs, if_false, Bool.false_eq_true, Nat.zero_add] at h
      simp [containsSub_of_countOccur_pos pat t h]

theorem mem_of_mem_insertDesc {α β : Type} [LinearOrder β] (x y : α × β) :
    ∀ l : List (α × β), x ∈ insertDesc y l → x = y ∨ x ∈ l
  | [], h => by
    unfold insertDesc at h
    simpa using h
  | z :: zs, h => by
    unfold insertDesc at h
    by_cases hc : z.2 < y.2
    · rw [if_pos hc] at h
      simpa using h
    · rw [if_neg hc] at h
      rcases List.mem_cons.mp h with h' | h'
      · exact Or.inr (h' ▸ List.mem_cons_self z zs)
      · rcases mem_of_mem_insertDesc x y zs h' with h'' | h''
        · exact Or.inl h''
        · exact Or.inr (List.mem_cons_of_mem z h'')

theorem mem_of_mem_sortDescBy_aux {α β : Type} [LinearOrder β] (x : α × β) :
    ∀ (l acc : List (α × β)),
      x ∈ l.foldl (fun acc y => insertDesc y acc) acc → x ∈ acc ∨ x ∈ l
  | [], acc, h => Or.inl h
  | z :: zs, acc, h => by
    rcases mem_of_mem_sortDescBy_aux x zs (insertDesc z acc) h with h' | h'
    · rcases mem_of_mem_insertDesc x z acc h' with h'' | h''
      · exact Or.inr (h'' ▸ List.mem_cons_self z zs)
      · exact Or.inl h''
    · exact Or.inr (List.mem_cons_of_mem z h')

theorem mem_of_mem_sortDescBy {α β : Type} [LinearOrder β] (x : α × β)
    (l : List (α × β)) (h : x ∈ sortDescBy l) : x ∈ l := by
  rcases mem_of_mem_sortDescBy_aux x l [] h with h' | h'
  · simp at h'
  · exact h'

theorem key_of_mem_bump (q : List Char × Nat) (t : List Char) :
    ∀ acc : List (List Char × Nat),
      q ∈ bump t acc → q.1 = t ∨ ∃ r ∈ acc, r.1 = q.1
  | [], h => by
    unfold bump at h
    simp at h
    exact Or.inl (by rw [h])
  | (u, n) :: rest, h => by
    unfold bump at h
    by_cases hc : u = t
    · rw [if_pos hc] at h
      rcases List.mem_cons.mp h with h' | h'
      · exact Or.inr ⟨(u, n), List.mem_cons_self _ _, by rw [h']⟩
      · exact Or.inr ⟨q, List.mem_cons_of_mem _ h', rfl⟩
    · rw [if_neg hc] at h
      rcases List.mem_cons.mp h with h' | h'
      · exact Or.inr ⟨(u, n), List.mem_cons_self _ _, by rw [h']⟩
      · rcases key_of_mem_bump q t rest h' with h'' | h''
        · exact Or.inl h''
        · rcases h'' with ⟨r, hr, hr'⟩
          exact Or.inr ⟨r, List.mem_cons_of_mem _ hr, hr'⟩

theorem key_of_mem_countFreq_aux (q : List Char × Nat) :
    ∀ (ts : List (List Char)) (acc : List (List Char × Nat)),
      q ∈ ts.foldl (fun acc t => bump t acc) acc →
      q.1 ∈ ts ∨ ∃ r ∈ acc, r.1 = q.1
  | [], acc, h => Or.inr ⟨q, h, rfl⟩
  | t :: ts, acc, h => by
    rcases key_of_mem_countFreq_aux q ts (bump t acc) h with h' | h'
    · exact Or.inl (List.mem_cons_of_mem t h')
    · rcases h' with ⟨r, hr, hr'⟩
      rcases key_of_mem_bump r t acc hr with h'' | h''
      · exact Or.inl (by rw [← hr', h'']; exact List.mem_cons_self t ts)
      · rcases h'' with ⟨r', hr'', hr''3⟩
        exact Or.inr ⟨r', hr'', by rw [hr''3, hr']⟩

theorem key_of_mem_countFreq (q : List Char × Nat) (ts : List (List Char))
    (h : q ∈ countFreq ts) : q.1 ∈ ts := by
  rcases key_of_mem_countFreq_aux q ts [] h with h' | h'
  · exact h'
  · simp at h'

/-! ## Claim theorems: the recording session state machine -/

/-- Claim C1, counterexample: with `silenceThreshold = 120`, a session in the
Recording state with `lastVoiceTime = 0` receiving a silent frame at
`now = 120` — elapsed time exactly equal to the threshold — does NOT
finalize: the callback does not raise `CallbackStop` and the session keeps
recording, because the source tests `now - last_voice_time >
silence_threshold` with a strict inequality. -/
theorem C1_boundary_continues :
    (callback (fun _ => false) 120
        { audioBuffer := [], isRecording := true, lastVoiceTime := 0 }
        [(0 : ℚ)] 120).2 = false ∧
      (callback (fun _ => false) 120
        { audioBuffer := [], isRecording := true, lastVoiceTime := 0 }
        [(0 : ℚ)] 120).1.isRecording = true := by
  have hlt : ¬ ((120 : ℚ) < 120 - 0) := by norm_num
  constructor <;> simp [callback, hlt]

/-- Claim C1 (amended): for every session in the Recording state, the
callback raises `CallbackStop` (the Recording → Finalizing transition)
exactly when the elapsed time since the last speech-classified frame is
STRICTLY GREATER than `silenceThreshold`; at exactly the threshold the
session continues recording. -/
theorem C1_finalize_iff_strict (f : Frame → Bool) (th : ℚ) (st : RecState)
    (fr : Frame) (now : ℚ) (h : st.isRecording = true) :
    (callback f th st fr now).2 = true ↔
      th < now - (if f fr then now else st.lastVoiceTime) := by
  unfold callback
  cases hf : f fr <;>
    simp only [hf, Bool.false_eq_true, if_false, if_true, h, ite_true] <;>
    split <;> simp_all

/-- Witness for C1: a recording session with `lastVoiceTime = 0` and a silent
frame at `now = 121` and threshold `120` satisfies the amended equivalence. -/
theorem C1_finalize_iff_strict_witness :
    (callback (fun _ => false) 120
        { audioBuffer := [], isRecording := true, lastVoiceTime := 0 }
        [(0 : ℚ)] 121).2 = true ↔
      (120 : ℚ) < 121 - (if (fun _ : Frame => false) [(0 : ℚ)] then 121 else 0) :=
  C1_finalize_iff_strict (fun _ => false) 120
    { audioBuffer := [], isRecording := true, lastVoiceTime := 0 }
    [(0 : ℚ)] 121 rfl

theorem callback_silent_not_recording (f : Frame → Bool) (th : ℚ)
    (st : RecState) (fr : Frame) (now : ℚ) (hf : f fr = false)
    (hr : st.isRecording = false) : callback f th st fr now = (st, false) := by
  unfold callback
  simp [hf, hr]

theorem runFrames_silent (f : Frame → Bool) (th : ℚ) :
    ∀ (frames : List (Frame × ℚ)) (st : RecState), st.isRecording = false →
      (∀ p ∈ frames, f p.1 = false) → runFrames f th st frames = st
  | [], _, _, _ => rfl
  | (fr, t) :: rest, st, hr, h => by
    have hf : f fr = false := h (fr, t) (List.mem_cons_self _ _)
    unfold runFrames
    rw [callback_silent_not_recording f th st fr t hf hr]
    simp only [Bool.false_eq_true, if_false]
    exact runFrames_silent f th rest st hr
      (fun p hp => h p (List.mem_cons_of_mem _ hp))

/-- Claim C7: for every frame sequence in which every frame is classified as
silence, the session never leaves the Listening state — starting from the
state `start_recording` sets up, recording never starts and the audio buffer
stays empty. -/
theorem C7_silence_stays_listening (f : Frame → Bool) (th : ℚ)
    (frames : List (Frame × ℚ)) (h : ∀ p ∈ frames, f p.1 = false) :
    (runFrames f th initRecState frames).isRecording = false ∧
      (runFrames f th initRecState frames).audioBuffer = [] := by
  rw [runFrames_silent f th frames initRecState rfl h]
  exact ⟨rfl, rfl⟩

/-- Witness for C7: two silent frames leave the initial state untouched. -/
theorem C7_silence_stays_listening_witness :
    (∀ p ∈ ([([(0 : ℚ)], (0 : ℚ)), ([(0 : ℚ)], 1)] : List (Frame × ℚ)),
        (fun _ : Frame => false) p.1 = false) ∧
      ((runFrames (fun _ => false) 120 initRecState
          [([(0 : ℚ)], (0 : ℚ)), ([(0 : ℚ)], 1)]).isRecording = false ∧
        (runFrames (fun _ => false) 120 initRecState
          [([(0 : ℚ)], (0 : ℚ)), ([(0 : ℚ)], 1)]).audioBuffer = []) :=
  ⟨by simp, C7_silence_stays_listening (fun _ => false) 120
    [([(0 : ℚ)], (0 : ℚ)), ([(0 : ℚ)], 1)] (by simp)⟩

/-- Claim C8: whenever the underlying voice-detection call fails with any
error, `is_speech` returns `false` (the frame is treated as not-speech); the
error is absorbed, never propagated. -/
theorem C8_vad_error_is_silence (vad : List Int → Except String Bool)
    (fr : Frame) (e : String)
    (h : vad (speechFrameInt16 fr) = Except.error e) :
    is_speech vad fr = false := by
  unfold is_speech
  rw [h]

/-- Witness for C8: a VAD engine that always fails makes `is_speech` return
`false` on a concrete frame. -/
theorem C8_vad_error_is_silence_witness :
    is_speech (fun _ => Except.error ("malformed frame")) [(0 : ℚ)] = false :=
  C8_vad_error_is_silence (fun _ => Except.error ("malformed frame"))
    [(0 : ℚ)] ("malformed frame") rfl

/-- Claim C10: a frame containing the in-range sample `1.0` is rescaled by
`is_speech` as `(1.0 * 32768) → int16`, which wraps to `-32768`, while
`save_audio` rescales the same sample as `(1.0 * 32767) → int16 = 32767`:
the classification and persistence paths apply different scalings and the
classification path wraps at full scale. -/
theorem C10_int16_scaling_mismatch :
    speechFrameInt16 [(1 : ℚ)] = [-32768] ∧
      saveFrameInt16 [(1 : ℚ)] = [32767] ∧
      (-1 : ℚ) ≤ 1 ∧ (1 : ℚ) ≤ 1 := by
  have h1 : ratTrunc ((1 : ℚ) * 32768) = 32768 := by
    simp only [ratTrunc, one_mul]
    norm_num
  have h2 : ratTrunc ((1 : ℚ) * 32767) = 32767 := by
    simp only [ratTrunc, one_mul]
    norm_num
  refine ⟨?_, ?_, by norm_num, le_refl 1⟩
  · simp only [speechFrameInt16, speechSampleInt16, List.map, h1]
    decide
  · simp only [saveFrameInt16, saveSampleInt16, List.map, h2]
    decide

/-! ## Claim theorems: the tagging pipeline -/

/-- Claim C2: two calls of `generate_tags` with identical text and identical
configuration (including the same topic-model stage) produce identical
output: the same keyword list in the same order, the same key-phrase list in
the same order, and the same set of categories.  The embedded pipeline is a
pure function of its inputs — the source's only candidate sources of
nondeterminism are the seeded LDA topic model (held fixed as `topicsFn`) and
the Python-set iteration order of the category accumulator, which the
set-level statement about categories is insensitive to. -/
theorem C2_generate_tags_deterministic (topicsFn : List Char → List String)
    (text : List Char) (maxKeywords maxPhrases : Nat) (cl : Bool) :
    (generate_tags topicsFn text maxKeywords maxPhrases cl).keywords =
        (generate_tags topicsFn text maxKeywords maxPhrases cl).keywords ∧
      (generate_tags topicsFn text maxKeywords maxPhrases cl).keyphrases =
        (generate_tags topicsFn text maxKeywords maxPhrases cl).keyphrases ∧
      ∀ c, c ∈ (generate_tags topicsFn text maxKeywords maxPhrases cl).categories ↔
        c ∈ (generate_tags topicsFn text maxKeywords maxPhrases cl).categories :=
  ⟨rfl, rfl, fun _ => Iff.rfl⟩

/-- Claim C9: for every text whose stripped length is at least 10 but whose
raw length is at most 100, `generate_tags` returns empty categories, empty
topics and purpose "общее обсуждение", regardless of the text's content and
of the topic model: the classification block runs only when
`len(text) > 100`. -/
theorem C9_short_text_skips_classification (topicsFn : List Char → List String)
    (text : List Char) (maxKeywords maxPhrases : Nat)
    (h10 : 10 ≤ (stripWS text).length) (h100 : text.length ≤ 100) :
    (generate_tags topicsFn text maxKeywords maxPhrases true).categories = [] ∧
      (generate_tags topicsFn text maxKeywords maxPhrases true).topics = [] ∧
      (generate_tags topicsFn text maxKeywords maxPhrases true).purpose =
        "общее обсуждение" := by
  unfold generate_tags
  rw [if_neg (by omega)]
  rw [if_neg (fun hc => absurd hc.2 (by omega))]
  exact ⟨rfl, rfl, rfl⟩

/-- Witness for C9: a 41-character text full of category triggers and
purpose indicators still gets no categories, no topics and the default
purpose. -/
theorem C9_short_text_skips_classification_witness :
    (10 ≤ (stripWS ("проект встреча клиент план график дедлайн".toList)).length ∧
        ("проект встреча клиент план график дедлайн".toList).length ≤ 100) ∧
      ((generate_tags (fun _ => [])
          ("проект встреча клиент план график дедлайн".toList) 7 3 true).categories = [] ∧
        (generate_tags (fun _ => [])
          ("проект встреча клиент план график дедлайн".toList) 7 3 true).topics = [] ∧
        (generate_tags (fun _ => [])
          ("проект встреча клиент план график дедлайн".toList) 7 3 true).purpose =
          "общее обсуждение") :=
  ⟨⟨by decide, by decide⟩,
    C9_short_text_skips_classification (fun _ => [])
      ("проект встреча клиент план график дедлайн".toList) 7 3
      (by decide) (by decide)⟩

/-- Claim C6, counterexample: on a text matching no trigger term,
`classify_conversation` returns the EMPTY list — there is no default
category on this path (the services-layer `TextAnalyzer.categorize_text`,
by contrast, does fall back to the single default "общий"). -/
theorem C6_counterexample :
    classify_conversation ("привет".toList) = [] ∧
      TextAnalyzer_categorize_text ("привет".toList) = ["общий"] := by
  constructor <;> decide

/-- Claim C6 (amended): `classify_conversation` assigns a category exactly
when one of its trigger terms appears as a substring of the normalized text,
and returns an empty list (no default) when none match; the services-layer
`TextAnalyzer.categorize_text` variant is the one that never returns an
empty list, falling back to the default category "общий". -/
theorem C6_category_iff_trigger :
    (∀ (text : List Char) (c : String),
        c ∈ classify_conversation text ↔
          ∃ kws, (c, kws) ∈ CATEGORIES ∧
            ∃ kw ∈ kws, containsSub kw.toList (clean_text text) = true) ∧
      ∀ text : List Char, 0 < (TextAnalyzer_categorize_text text).length := by
  constructor
  · intro text c
    unfold classify_conversation
    constructor
    · intro h
      rcases List.mem_map.mp h with ⟨p, hp, hpc⟩
      rcases List.mem_filter.mp hp with ⟨hmem, hpred⟩
      rcases List.any_eq_true.mp hpred with ⟨kw, hkw, hsub⟩
      refine ⟨p.2, ?_, kw, hkw, hsub⟩
      rw [← hpc]
      exact hmem
    · rintro ⟨kws, hmem, kw, hkw, hsub⟩
      apply List.mem_map.mpr
      refine ⟨(c, kws), List.mem_filter.mpr ⟨hmem, ?_⟩, rfl⟩
      exact List.any_eq_true.mpr ⟨kw, hkw, hsub⟩
  · intro text
    have aux : ∀ l : List String, 0 < (if l = [] then ["общий"] else l).length := by
      intro l
      split
      · simp
      · next hne => exact List.length_pos.mpr hne
    exact aux _

/-- Claim C5, counterexample: the bigram "встреча клиент" occurs exactly
once in the candidate n-gram stream of the text "встреча клиент", yet
`extract_keyphrases` returns it — the source applies no minimum-frequency
filter, contradicting the claimed minimum frequency of 2. -/
theorem C5_counterexample :
    extract_keyphrases ("встреча клиент".toList) 5 2 3 =
        [("встреча клиент").toList] ∧
      countFreq (candidatePhrases ("встреча клиент".toList) 2 3) =
        [(("встреча клиент").toList, 1)] := by
  constructor <;> decide

/-- Claim C5 (amended): every key phrase returned by `extract_keyphrases`
occurs as a qualifying n-gram of the filtered token stream (so its frequency
is at least 1), but no minimum frequency of 2 is required: the result is
simply the top `max_phrases` candidates by frequency, and phrases of
frequency 1 are returned rather than withheld. -/
theorem C5_keyphrases_no_minimum_frequency (text : List Char)
    (maxPhrases : Nat) (p : List Char)
    (h : p ∈ extract_keyphrases text maxPhrases 2 3) :
    p ∈ candidatePhrases text 2 3 := by
  unfold extract_keyphrases at h
  rcases List.mem_map.mp h with ⟨q, hq, hqp⟩
  have hq' : q ∈ sortDescBy (countFreq (candidatePhrases text 2 3)) :=
    List.take_subset maxPhrases _ hq
  have hq'' := mem_of_mem_sortDescBy q _ hq'
  have hkey := key_of_mem_countFreq q _ hq''
  rwa [hqp] at hkey

/-- Witness for C5: the frequency-1 phrase returned on "встреча клиент" is
indeed a candidate n-gram. -/
theorem C5_keyphrases_no_minimum_frequency_witness :
    ("встреча клиент".toList ∈
        extract_keyphrases ("встреча клиент".toList) 5 2 3) ∧
      "встреча клиент".toList ∈ candidatePhrases ("встреча клиент".toList) 2 3 :=
  ⟨by decide, C5_keyphrases_no_minimum_frequency ("встреча клиент".toList) 5
    ("встреча клиент".toList) (by decide)⟩

/-- Claim C3, counterexample: the text "план план план" contains the
indicator "план" 3 times, yet the raw score of "планирование" is 1, not 3 —
the source adds 1 per indicator phrase PRESENT (`if indicator in clean`),
not 1 per occurrence. -/
theorem C3_counterexample :
    countOccur ("план".toList) (clean_text ("план план план".toList)) = 3 ∧
      (purposeScores ("план план план".toList)).lookup "планирование" =
        some 1 ∧
      ¬ ((purposeScores ("план план план".toList)).lookup "планирование" =
        some 3) := by
  refine ⟨by decide, by decide, by decide⟩

set_option maxHeartbeats 2000000 in
/-- Claim C3 (amended): `determine_conversation_purpose` scores each purpose
by the number of its indicator phrases that occur at least once (substring
containment) in the normalized text — occurrence multiplicity never affects
the result, so two texts in which the same indicators are present classify
identically — and, when the total score is positive, converts the raw scores
to the probability distribution `score / total * 100`. -/
theorem C3_presence_scoring :
    (∀ t₁ t₂ : List Char,
        (∀ p ∈ PURPOSE_INDICATORS, ∀ ind ∈ p.2,
            containsSub ind.toList (clean_text t₁) =
              containsSub ind.toList (clean_text t₂)) →
          determine_conversation_purpose t₁ =
            determine_conversation_purpose t₂) ∧
      ∀ t : List Char, 0 < totalPurposeScore t →
        (determine_conversation_purpose t).purpose_probabilities =
          (purposeScores t).map
            (fun p => (p.1, ((p.2 : ℚ) / (totalPurposeScore t : ℚ)) * 100)) := by
  have hsc : ∀ t₁ t₂ : List Char,
      (∀ p ∈ PURPOSE_INDICATORS, ∀ ind ∈ p.2,
        containsSub ind.toList (clean_text t₁) =
          containsSub ind.toList (clean_text t₂)) →
      purposeScores t₁ = purposeScores t₂ := by
    intro t₁ t₂ h
    unfold purposeScores
    apply List.map_congr_left
    intro p hp
    congr 1
    apply List.countP_congr
    intro ind hind
    rw [h p hp ind hind]
  constructor
  · intro t₁ t₂ h
    unfold determine_conversation_purpose totalPurposeScore
    rw [hsc t₁ t₂ h]
  · intro t ht
    show (if 0 < totalPurposeScore t then
          (purposeScores t).map
            (fun p => (p.1, ((p.2 : ℚ) / (totalPurposeScore t : ℚ)) * 100))
        else (purposeScores t).map (fun p => (p.1, 0))) =
      (purposeScores t).map
        (fun p => (p.1, ((p.2 : ℚ) / (totalPurposeScore t : ℚ)) * 100))
    rw [if_pos ht]

/-- Witness for C3: "план" and "план план план" make the same indicators
present, hence classify to identical results — one occurrence and three
occurrences of "план" contribute the same score. -/
theorem C3_presence_scoring_witness :
    (∀ p ∈ PURPOSE_INDICATORS, ∀ ind ∈ p.2,
        containsSub ind.toList (clean_text ("план".toList)) =
          containsSub ind.toList (clean_text ("план план план".toList))) ∧
      determine_conversation_purpose ("план".toList) =
        determine_conversation_purpose ("план план план".toList) :=
  ⟨by decide, C3_presence_scoring.1 ("план".toList) ("план план план".toList)
    (by decide)⟩

set_option maxHeartbeats 2000000 in
/-- Claim C4: for every text whose normalized form contains "план" 3 times
and contains "график", with no indicator phrase of any other purpose
present, `determine_conversation_purpose` returns
main_purpose = "планирование" and assigns it probability 100% among the
scored purposes. -/
theorem C4_planning_purpose (text : List Char)
    (h1 : countOccur ("план".toList) (clean_text text) = 3)
    (h2 : containsSub ("график".toList) (clean_text text) = true)
    (h3 : ∀ p ∈ PURPOSE_INDICATORS, p.1 ≠ "планирование" →
      ∀ ind ∈ p.2, containsSub ind.toList (clean_text text) = false) :
    (determine_conversation_purpose text).main_purpose = "планирование" ∧
      ("планирование", (100 : ℚ)) ∈
        (determine_conversation_purpose text).purpose_probabilities := by
  have hplan : containsSub ("план".toList) (clean_text text) = true :=
    containsSub_of_countOccur_pos ("план".toList) (clean_text text) (by omega)
  have hzero : ∀ (lab : String) (inds : List String),
      (lab, inds) ∈ PURPOSE_INDICATORS → lab ≠ "планирование" →
      List.countP (fun ind => containsSub ind.toList (clean_text text)) inds = 0 := by
    intro lab inds hmem hne
    rw [List.countP_eq_zero]
    intro a ha
    simp only [Bool.not_eq_true]
    exact h3 (lab, inds) hmem hne a ha
  obtain ⟨s, hs_def⟩ : ∃ s, s = List.countP
      (fun ind => containsSub ind.toList (clean_text text))
      ["план", "график", "дедлайн", "сроки", "следующий шаг", "этапы",
       "распределить", "запланировать", "календарь", "расписание",
       "дорожная карта"] := ⟨_, rfl⟩
  have hs2 : 2 ≤ s := by
    rw [hs_def, List.countP_cons, List.countP_cons]
    simp only [hplan, h2, if_true]
    omega
  have h0s : 0 < s := by omega
  have e₁ := hzero "брейншторм"
    ["идея", "придумать", "обсудить варианты", "мозговой штурм", "креативный",
     "давайте подумаем", "как насчет", "предложение", "вариант", "концепция"]
    (by decide) (by decide)
  have e₂ := hzero "обсуждение проблемы"
    ["проблема", "сложность", "трудность", "решение", "исправить", "ошибка",
     "не работает", "сбой", "недостаток", "преодолеть", "устранить"]
    (by decide) (by decide)
  have e₄ := hzero "принятие решения"
    ["решение", "выбор", "решить", "определить", "согласовать", "утвердить",
     "остановиться на", "выбрать", "предпочтение", "окончательно"]
    (by decide) (by decide)
  have e₅ := hzero "информирование"
    ["сообщить", "информация", "данные", "отчет", "статус", "новость",
     "извещение", "уведомить", "рассказать", "поделиться информацией"]
    (by decide) (by decide)
  have e₆ := hzero "обучение"
    ["объяснить", "научить", "разобрать", "понять как", "методика",
     "инструкция", "техника", "обучение", "тренинг", "изучение", "пример"]
    (by decide) (by decide)
  have e₇ := hzero "обратная связь"
    ["фидбек", "обратная связь", "мнение", "оценка", "как тебе", "что думаешь",
     "твое мнение", "впечатление", "комментарий", "отзыв"]
    (by decide) (by decide)
  have hscores : purposeScores text =
      [("брейншторм", 0), ("обсуждение проблемы", 0), ("планирование", s),
       ("принятие решения", 0), ("информирование", 0), ("обучение", 0),
       ("обратная связь", 0)] := by
    unfold purposeScores PURPOSE_INDICATORS
    dsimp only [List.map_cons, List.map_nil]
    rw [e₁, e₂, e₄, e₅, e₆, e₇, ← hs_def]
  have htotal : totalPurposeScore text = s := by
    unfold totalPurposeScore
    rw [hscores]
    simp
  have hmax : maxByScore (purposeScores text) = ("планирование", s) := by
    rw [hscores]
    simp [maxByScore, h0s, Nat.not_lt_zero]
  constructor
  · show (if 2 ≤ (maxByScore (purposeScores text)).2 then
        (maxByScore (purposeScores text)).1 else "общее обсуждение") =
      "планирование"
    rw [hmax]
    exact if_pos hs2
  · show ("планирование", (100 : ℚ)) ∈
      (if 0 < totalPurposeScore text then
        (purposeScores text).map
          (fun p => (p.1, ((p.2 : ℚ) / ((totalPurposeScore text) : ℚ)) * 100))
      else (purposeScores text).map (fun p => (p.1, 0)))
    rw [if_pos (by rw [htotal]; exact h0s), hscores, htotal]
    have hdiv : ((s : ℚ) / (s : ℚ)) * 100 = 100 := by
      rw [div_self (Nat.cast_ne_zero.mpr (by omega))]
      norm_num
    dsimp only [List.map_cons, List.map_nil]
    refine List.mem_cons_of_mem _ (List.mem_cons_of_mem _
      (List.mem_cons.mpr (Or.inl ?_)))
    rw [hdiv]

set_option maxHeartbeats 2000000 in
/-- Witness for C4: the text "план план план график" has 3 occurrences of
"план", contains "график", and no indicator of any other purpose; it is
classified as "планирование" with probability 100%. -/
theorem C4_planning_purpose_witness :
    (countOccur ("план".toList)
        (clean_text ("план план план график".toList)) = 3 ∧
      containsSub ("график".toList)
        (clean_text ("план план план график".toList)) = true ∧
      (∀ p ∈ PURPOSE_INDICATORS, p.1 ≠ "планирование" →
        ∀ ind ∈ p.2,
          containsSub ind.toList
            (clean_text ("план план план график".toList)) = false)) ∧
      ((determine_conversation_purpose
          ("план план план график".toList)).main_purpose = "планирование" ∧
        ("планирование", (100 : ℚ)) ∈
          (determine_conversation_purpose
            ("план план план график".toList)).purpose_probabilities) :=
  ⟨⟨by decide, by decide, by decide⟩,
    C4_planning_purpose ("план план план график".toList)
      (by decide) (by decide) (by decide)⟩
